import Mathlib

/-!
Shallow embedding of the go-sonarr-client library (`src/sonarr.go`,
`src/utils.go`, `src/models.go`, and the unnamed variant file
`src/unnamed/part_000`) in Lean 4, together with theorems settling the
frozen claims about its specification.

Modelling conventions:
* Go `int` becomes `Int`; `strconv.Itoa` becomes `goItoa` (decimal
  formatting defined below).
* `url.Values` (a map from keys to value lists, where `Set` replaces the
  whole entry by a singleton) becomes an association list with
  replace-on-set semantics; only lookup of a key matters for the claims.
* `net/url.Parse` is modelled by a concrete simplified parser: it fails
  exactly when the input contains an ASCII control character (the common
  failure mode of the real parser) and otherwise splits scheme, host,
  path and query.  `ResolveReference` follows RFC 3986 for references
  without dot segments, which is the only kind the library produces.
* The HTTP exchange (`http.Client.Do`) is a function from requests to a
  transport result; each helper also returns the list of requests it
  actually handed to the transport, so "no network activity" is the
  statement that this trace is empty.
* JSON documents are an inductive AST; response bodies are modelled as
  already-parsed JSON values, so decode failures are shape mismatches.
  `time.Time` is modelled by its (exact, integral) timestamp and
  `float32` rating values by exact integers, since floating point and
  calendar formatting are outside the modelled value space; consequently
  `json.Marshal`'s data-dependent failures (NaN floats, out-of-range
  times) are represented by passing the marshalling function explicitly
  to the PUT-based operations.
-/

set_option linter.dupNamespace false

/-- JSON document AST.  Response bodies and PUT payload bodies are values
of this type; numbers are exact integers (see the module docstring). -/
inductive Json where
  | null : Json
  | bool (b : Bool) : Json
  | num (n : Int) : Json
  | str (s : String) : Json
  | arr (elems : List Json) : Json
  | obj (fields : List (String × Json)) : Json

/-- Model of Go `url.Values` restricted to single-valued entries (the
library only ever uses `Set`, which replaces the entry). -/
def Values := List (String × String)
  deriving DecidableEq, Repr

namespace Values

/-- Model of `url.Values.Set`: replace any existing entry for the key. -/
def set (k v : String) (ps : Values) : Values :=
  (k, v) :: List.filter (fun p => p.1 ≠ k) ps

/-- Model of `url.Values.Get`, returning `none` when the key is absent. -/
def get (k : String) (ps : Values) : Option String :=
  (List.find? (fun p => p.1 = k) ps).map Prod.snd

theorem get_set_self (k v : String) (ps : Values) :
    get k (set k v ps) = some v := by
  simp [get, set]

end Values

/-- Model of a parsed `net/url.URL`: scheme and host are empty for
relative references; the query is kept in parsed form. -/
structure URL where
  scheme : String
  host : String
  path : String
  query : Values
  deriving DecidableEq, Repr

/-- Split a character list at the first occurrence of `c`, if any. -/
def splitCharList (c : Char) : List Char → List Char × Option (List Char)
  | [] => ([], none)
  | x :: xs =>
    if x = c then ([], some xs)
    else
      let (pre, post) := splitCharList c xs
      (x :: pre, post)

/-- Split a string at the first occurrence of a character, if any. -/
def splitAtChar (c : Char) (s : String) : String × Option String :=
  match splitCharList c s.data with
  | (pre, none) => (⟨pre⟩, none)
  | (pre, some post) => (⟨pre⟩, some ⟨post⟩)

/-- Split a character list on every occurrence of `c` (like
`strings.Split` with a one-character separator). -/
def splitOnChar (c : Char) : List Char → List (List Char)
  | [] => [[]]
  | x :: xs =>
    if x = c then [] :: splitOnChar c xs
    else
      match splitOnChar c xs with
      | [] => [[x]]
      | y :: ys => (x :: y) :: ys

/-- Parse a raw query string `k1=v1&k2=v2&...` into `Values`.  Models
`url.Values` parsing closely enough for the claims (no percent escapes,
which the library never produces). -/
def parseQuery (s : String) : Values :=
  if s = "" then []
  else
    (splitOnChar '&' s.data).map fun kv =>
      match splitCharList '=' kv with
      | (k, none) => (⟨k⟩, "")
      | (k, some v) => (⟨k⟩, ⟨v⟩)

/-- Model of `net/url.Parse`.  Fails exactly when the input contains an
ASCII control character (the failure mode of the real parser:
"net/url: invalid control character in URL"); otherwise splits off the
query at the first `?`, then — as the real parser does — treats
everything before the first `:` as the scheme (a `//` after it
introducing the host). -/
def parseURL (s : String) : Except String URL :=
  if s.data.any (fun c => c.toNat < 0x20) then
    Except.error "net/url: invalid control character in URL"
  else
    let (beforeQ, rawQ) := splitAtChar '?' s
    let query := match rawQ with
      | none => ([] : Values)
      | some q => parseQuery q
    match splitAtChar ':' beforeQ with
    | (_, none) => Except.ok { scheme := "", host := "", path := beforeQ, query := query }
    | (schemeStr, some rest) =>
      if rest.data.take 2 = ['/', '/'] then
        let hostAndPath : String := ⟨rest.data.drop 2⟩
        let (host, path) :=
          match splitAtChar '/' hostAndPath with
          | (h, none) => (h, "")
          | (h, some p) => (h, "/" ++ p)
        Except.ok { scheme := schemeStr, host := host, path := path, query := query }
      else
        Except.ok { scheme := schemeStr, host := "", path := rest, query := query }

/-- The directory portion of a path: everything up to and including the
last `/` (empty when there is no `/`). -/
def dirOf (p : String) : String :=
  match (p.data.reverse.findIdx? (· = '/')) with
  | none => ""
  | some i => ⟨p.data.take (p.data.length - i)⟩

/-- Whether a path is absolute (begins with `/`). -/
def isAbsPath (p : String) : Bool :=
  match p.data with
  | [] => false
  | c :: _ => c = '/'

/-- Model of `url.URL.ResolveReference` for references without dot
segments (the only references the library builds). -/
def URL.resolveReference (base ref : URL) : URL :=
  if ref.scheme ≠ "" then ref
  else if ref.path = "" ∧ ref.query = [] then
    { base with }
  else if isAbsPath ref.path then
    { base with path := ref.path, query := ref.query }
  else if ref.path = "" then
    { base with query := ref.query }
  else
    { base with path := dirOf base.path ++ ref.path, query := ref.query }

/-- An HTTP request as built by `http.NewRequest`: method, final URL and
optional JSON body. -/
structure Request where
  method : String
  url : URL
  body : Option Json

/-- An HTTP response: status code and (already parsed) JSON body. -/
structure Response where
  statusCode : Nat
  body : Json

/-- Model of `http.Client.Do`: either a transport error (message) or a
response.  The claims quantify over this function. -/
def Transport := Request → Except String Response

/-- Errors surfaced by the library, tagged by their origin so that
"a local serialization error, not a transport error" is expressible. -/
inductive GoErr where
  | validation (msg : String) : GoErr
  | urlParse (msg : String) : GoErr
  | marshal (msg : String) : GoErr
  | transport (msg : String) : GoErr
  | decode (msg : String) : GoErr
  deriving DecidableEq, Repr

/-- The `Sonarr` client struct from `sonarr.go`: base URL, API key and
the HTTP client (modelled as the transport function). -/
structure Sonarr where
  baseURL : URL
  apiKey : String
  HTTPClient : Transport

/-- Result of a request helper: the Go `(*http.Response, error)` pair as
an `Except`, together with the trace of requests handed to the
transport ("no network activity" = empty trace). -/
abbrev HResult := Except GoErr Response × List Request

/-- The final `return s.HTTPClient.Do(req)` of each helper: perform the
exchange and record the request in the trace. -/
def Sonarr.doRequest (s : Sonarr) (req : Request) : HResult :=
  match s.HTTPClient req with
  | Except.error e => (Except.error (GoErr.transport e), [req])
  | Except.ok res => (Except.ok res, [req])

/-- Embedding of `(*Sonarr).get` from `utils.go`: parse the endpoint,
resolve it against the base URL, take the caller's params (or, when
absent, the resolved URL's query), force the `apikey` entry, and issue a
GET. -/
def Sonarr.get (s : Sonarr) (endpoint : String) (params : Option Values) :
    HResult :=
  match parseURL endpoint with
  | Except.error e => (Except.error (GoErr.urlParse e), [])
  | Except.ok relativeURL =>
    let endpointURL := s.baseURL.resolveReference relativeURL
    let ps := match params with
      | none => endpointURL.query
      | some p => p
    let ps := Values.set "apikey" s.apiKey ps
    s.doRequest { method := "GET", url := { endpointURL with query := ps }, body := none }

/-- Embedding of `(*Sonarr).put` from `utils.go`.  The first argument is
the result of `json.Marshal(payload)` (see the module docstring): a
marshalling failure aborts before the endpoint is even parsed. -/
def Sonarr.put (s : Sonarr) (endpoint : String) (payload : Except String Json) :
    HResult :=
  match payload with
  | Except.error e => (Except.error (GoErr.marshal e), [])
  | Except.ok body =>
    match parseURL endpoint with
    | Except.error e => (Except.error (GoErr.urlParse e), [])
    | Except.ok relativeURL =>
      let endpointURL := s.baseURL.resolveReference relativeURL
      let ps := Values.set "apikey" s.apiKey endpointURL.query
      s.doRequest { method := "PUT", url := { endpointURL with query := ps }, body := some body }

/-- Embedding of `(*Sonarr).del` from `utils.go`; identical to `get`
except for the method. -/
def Sonarr.del (s : Sonarr) (endpoint : String) (params : Option Values) :
    HResult :=
  match parseURL endpoint with
  | Except.error e => (Except.error (GoErr.urlParse e), [])
  | Except.ok relativeURL =>
    let endpointURL := s.baseURL.resolveReference relativeURL
    let ps := match params with
      | none => endpointURL.query
      | some p => p
    let ps := Values.set "apikey" s.apiKey ps
    s.doRequest { method := "DELETE", url := { endpointURL with query := ps }, body := none }

/-- Model of `strings.HasSuffix`. -/
def goHasSuffix (s suffix : String) : Bool :=
  List.isSuffixOf suffix.data s.data

/-- The base-address normalization in `New` (`sonarr.go` lines 40-42):
append a trailing `/` when the address lacks one. -/
def normalizeBase (apiURL : String) : String :=
  if goHasSuffix apiURL "/" then apiURL else apiURL ++ "/"

/-- The zero value of `http.Client` as a transport: attempting a real
network exchange is outside the model, so it reports a transport error.
Operations are proved for arbitrary transports, so nothing depends on
this default. -/
def defaultTransport : Transport := fun _ => Except.error "no transport configured"

/-- Embedding of `New` from `sonarr.go`: reject an empty address, then an
empty key, normalize the trailing slash, parse, and build the client. -/
def New (apiURL apiKey : String) : Except GoErr Sonarr :=
  if apiURL = "" then
    Except.error (GoErr.validation "apiURL is required")
  else if apiKey = "" then
    Except.error (GoErr.validation "apiKey is required")
  else
    match parseURL (normalizeBase apiURL) with
    | Except.error e => Except.error (GoErr.urlParse ("Failed to parse baseURL: " ++ e))
    | Except.ok baseURL =>
      Except.ok { baseURL := baseURL, apiKey := apiKey, HTTPClient := defaultTransport }

/-! ## Entity model (`models.go`)

`time.Time` is modelled by its exact integral timestamp; the `float32`
rating value by an exact integer (see the module docstring). -/

/-- Model of Go `time.Time` as an exact timestamp. -/
structure GoTime where
  nanos : Int
  deriving DecidableEq, Repr, Inhabited

/-- Element type of `Series.AlternateTitles`. -/
structure SeriesAltTitle where
  Title : String
  SeasonNumber : Int
  deriving DecidableEq, Repr, Inhabited

/-- Element type of `Series.Images`. -/
structure SeriesImage where
  CoverType : String
  deriving DecidableEq, Repr, Inhabited

/-- The `Statistics` record nested in a season of a `Series`. -/
structure SeasonStatistics where
  PreviousAiring : GoTime
  EpisodeFileCount : Int
  EpisodeCount : Int
  TotalEpisodeCount : Int
  SizeOnDisk : Int
  PercentOfEpisodes : Int
  deriving DecidableEq, Repr, Inhabited

/-- Element type of `Series.Seasons`. -/
structure SeriesSeason where
  SeasonNumber : Int
  Monitored : Bool
  Statistics : SeasonStatistics
  deriving DecidableEq, Repr, Inhabited

/-- The `Ratings` record nested in a `Series`. -/
structure SeriesRatings where
  Votes : Int
  Value : Int
  deriving DecidableEq, Repr, Inhabited

/-- `Series` stored on the Sonarr server. -/
structure Series where
  Title : String
  AlternateTitles : List SeriesAltTitle
  SortTitle : String
  SeasonCount : Int
  TotalEpisodeCount : Int
  EpisodeCount : Int
  EpisodeFileCount : Int
  SizeOnDisk : Int
  Status : String
  Overview : String
  PreviousAiring : GoTime
  Network : String
  AirTime : String
  Images : List SeriesImage
  Seasons : List SeriesSeason
  Year : Int
  Path : String
  ProfileID : Int
  SeasonFolder : Bool
  Monitored : Bool
  UseSceneNumbering : Bool
  Runtime : Int
  TvdbID : Int
  TvRageID : Int
  TvMazeID : Int
  FirstAired : GoTime
  LastInfoSync : GoTime
  SeriesType : String
  CleanTitle : String
  ImdbID : String
  TitleSlug : String
  Certification : String
  Genres : List String
  Tags : List Int
  Added : GoTime
  Ratings : SeriesRatings
  QualityProfileID : Int
  ID : Int
  deriving DecidableEq, Repr, Inhabited

/-- `Episode` of a `Series`. -/
structure Episode where
  SeriesID : Int
  EpisodeFileID : Int
  SeasonNumber : Int
  EpisodeNumber : Int
  Title : String
  AirDate : String
  AirDateUTC : GoTime
  Overview : String
  HasFile : Bool
  Monitored : Bool
  UnverifiedSceneNumbering : Bool
  ID : Int
  deriving DecidableEq, Repr, Inhabited

/-- The inner `Quality` record of a `Quality`. -/
structure QualityInner where
  ID : Int
  Name : String
  deriving DecidableEq, Repr, Inhabited

/-- The `Revision` record of a `Quality`. -/
structure QualityRevision where
  Version : Int
  Real : Int
  deriving DecidableEq, Repr, Inhabited

/-- `Quality` of a file. -/
structure Quality where
  Quality : QualityInner
  Revision : QualityRevision
  Proper : Bool
  deriving DecidableEq, Repr, Inhabited

/-- `EpisodeFile` of an `Episode`. -/
structure EpisodeFile where
  SeriesID : Int
  SeasonNumber : Int
  RelativePath : String
  Path : String
  Size : Int
  DateAdded : String
  SceneName : String
  Quality : Quality
  QualityCutoffNotMet : Bool
  ID : Int
  deriving DecidableEq, Repr, Inhabited

/-- `Calendar` entry for a past or upcoming airing. -/
structure Calendar where
  SeriesID : Int
  EpisodeFileID : Int
  SeasonNumber : Int
  EpisodeNumber : Int
  Title : String
  AirDate : String
  AirDateUTC : GoTime
  HasFile : Bool
  Monitored : Bool
  AbsoluteEpisodeNumber : Int
  Series : Series
  UnverifiedSceneNumbering : Bool
  deriving DecidableEq, Repr, Inhabited

/-- `DiskSpace` remaining on a drive mounted on the server. -/
structure DiskSpace where
  Path : String
  Label : String
  FreeSpace : Int
  TotalSpace : Int
  deriving DecidableEq, Repr, Inhabited

/-- `Tag` used to tag series. -/
structure Tag where
  Label : String
  ID : Int
  deriving DecidableEq, Repr, Inhabited

/-! ## JSON codecs

Encoders model `json.Marshal` at the document level (every struct field
is emitted under its `json:"..."` tag name, in declaration order).
Decoders model `json.Unmarshal` into a struct: a missing key or JSON
`null` leaves the field at its zero value, a wrong-typed value is an
error, unknown keys are ignored. -/

/-- First entry for a key in a JSON object's field list. -/
def findField (k : String) : List (String × Json) → Option Json
  | [] => none
  | (k', v) :: rest => if k = k' then some v else findField k rest

/-- Look a key up in a JSON value (objects only). -/
def Json.getField (j : Json) (k : String) : Option Json :=
  match j with
  | Json.obj fs => findField k fs
  | _ => none

/-- Decode a struct field of Go type `int`. -/
def decInt : Option Json → Except String Int
  | none => Except.ok 0
  | some Json.null => Except.ok 0
  | some (Json.num n) => Except.ok n
  | some _ => Except.error "json: cannot unmarshal value into field of type int"

/-- Decode a struct field of Go type `string`. -/
def decStr : Option Json → Except String String
  | none => Except.ok ""
  | some Json.null => Except.ok ""
  | some (Json.str s) => Except.ok s
  | some _ => Except.error "json: cannot unmarshal value into field of type string"

/-- Decode a struct field of Go type `bool`. -/
def decBool : Option Json → Except String Bool
  | none => Except.ok false
  | some Json.null => Except.ok false
  | some (Json.bool b) => Except.ok b
  | some _ => Except.error "json: cannot unmarshal value into field of type bool"

/-- Decode a struct field of Go type `time.Time` (modelled timestamp). -/
def decTime : Option Json → Except String GoTime
  | none => Except.ok { nanos := 0 }
  | some Json.null => Except.ok { nanos := 0 }
  | some (Json.num n) => Except.ok { nanos := n }
  | some _ => Except.error "json: cannot unmarshal value into field of type Time"

/-- Decode a struct field holding a Go slice, given the element decoder:
missing or `null` yields the nil slice. -/
def decListWith (f : Json → Except String α) : Option Json → Except String (List α)
  | none => Except.ok []
  | some Json.null => Except.ok []
  | some (Json.arr xs) => xs.mapM f
  | some _ => Except.error "json: cannot unmarshal value into field of slice type"

/-- Decode a slice element of Go type `string`. -/
def decStrElem : Json → Except String String
  | Json.str s => Except.ok s
  | _ => Except.error "json: cannot unmarshal array element into string"

/-- Decode a slice element of Go type `int`. -/
def decIntElem : Json → Except String Int
  | Json.num n => Except.ok n
  | _ => Except.error "json: cannot unmarshal array element into int"

/-- `time.Time` encoder (modelled timestamp; see module docstring). -/
def GoTime.toJson (t : GoTime) : Json := Json.num t.nanos

def SeriesAltTitle.toJson (a : SeriesAltTitle) : Json :=
  Json.obj [("title", Json.str a.Title), ("seasonNumber", Json.num a.SeasonNumber)]

def SeriesAltTitle.fromJson (j : Json) : Except String SeriesAltTitle := do
  let t ← decStr (j.getField "title")
  let n ← decInt (j.getField "seasonNumber")
  pure { Title := t, SeasonNumber := n }

def SeriesImage.toJson (i : SeriesImage) : Json :=
  Json.obj [("coverType", Json.str i.CoverType)]

def SeriesImage.fromJson (j : Json) : Except String SeriesImage := do
  let c ← decStr (j.getField "coverType")
  pure { CoverType := c }

def SeasonStatistics.toJson (st : SeasonStatistics) : Json :=
  Json.obj
    [ ("previousAiring", st.PreviousAiring.toJson)
    , ("episodeFileCount", Json.num st.EpisodeFileCount)
    , ("episodeCount", Json.num st.EpisodeCount)
    , ("totalEpisodeCount", Json.num st.TotalEpisodeCount)
    , ("sizeOnDisk", Json.num st.SizeOnDisk)
    , ("percentOfEpisodes", Json.num st.PercentOfEpisodes) ]

def SeasonStatistics.fromJson (j : Json) : Except String SeasonStatistics := do
  let pa ← decTime (j.getField "previousAiring")
  let efc ← decInt (j.getField "episodeFileCount")
  let ec ← decInt (j.getField "episodeCount")
  let tec ← decInt (j.getField "totalEpisodeCount")
  let sod ← decInt (j.getField "sizeOnDisk")
  let poe ← decInt (j.getField "percentOfEpisodes")
  pure { PreviousAiring := pa, EpisodeFileCount := efc, EpisodeCount := ec,
         TotalEpisodeCount := tec, SizeOnDisk := sod, PercentOfEpisodes := poe }

def SeriesSeason.toJson (se : SeriesSeason) : Json :=
  Json.obj
    [ ("seasonNumber", Json.num se.SeasonNumber)
    , ("monitored", Json.bool se.Monitored)
    , ("statistics", se.Statistics.toJson) ]

/-- Decode a struct field holding a nested struct value, given the
struct decoder: missing or `null` yields the zero value. -/
def decStructWith (f : Json → Except String α) (zero : α) : Option Json → Except String α
  | none => Except.ok zero
  | some Json.null => Except.ok zero
  | some j => f j

def SeriesSeason.fromJson (j : Json) : Except String SeriesSeason := do
  let n ← decInt (j.getField "seasonNumber")
  let m ← decBool (j.getField "monitored")
  let st ← decStructWith SeasonStatistics.fromJson default (j.getField "statistics")
  pure { SeasonNumber := n, Monitored := m, Statistics := st }

def SeriesRatings.toJson (r : SeriesRatings) : Json :=
  Json.obj [("votes", Json.num r.Votes), ("value", Json.num r.Value)]

def SeriesRatings.fromJson (j : Json) : Except String SeriesRatings := do
  let v ← decInt (j.getField "votes")
  let va ← decInt (j.getField "value")
  pure { Votes := v, Value := va }

def Series.toJson (s : Series) : Json :=
  Json.obj
    [ ("title", Json.str s.Title)
    , ("alternateTitles", Json.arr (s.AlternateTitles.map SeriesAltTitle.toJson))
    , ("sortTitle", Json.str s.SortTitle)
    , ("seasonCount", Json.num s.SeasonCount)
    , ("totalEpisodeCount", Json.num s.TotalEpisodeCount)
    , ("episodeCount", Json.num s.EpisodeCount)
    , ("episodeFileCount", Json.num s.EpisodeFileCount)
    , ("sizeOnDisk", Json.num s.SizeOnDisk)
    , ("status", Json.str s.Status)
    , ("overview", Json.str s.Overview)
    , ("previousAiring", s.PreviousAiring.toJson)
    , ("network", Json.str s.Network)
    , ("airTime", Json.str s.AirTime)
    , ("images", Json.arr (s.Images.map SeriesImage.toJson))
    , ("seasons", Json.arr (s.Seasons.map SeriesSeason.toJson))
    , ("year", Json.num s.Year)
    , ("path", Json.str s.Path)
    , ("profileId", Json.num s.ProfileID)
    , ("seasonFolder", Json.bool s.SeasonFolder)
    , ("monitored", Json.bool s.Monitored)
    , ("useSceneNumbering", Json.bool s.UseSceneNumbering)
    , ("runtime", Json.num s.Runtime)
    , ("tvdbId", Json.num s.TvdbID)
    , ("tvRageId", Json.num s.TvRageID)
    , ("tvMazeId", Json.num s.TvMazeID)
    , ("firstAired", s.FirstAired.toJson)
    , ("lastInfoSync", s.LastInfoSync.toJson)
    , ("seriesType", Json.str s.SeriesType)
    , ("cleanTitle", Json.str s.CleanTitle)
    , ("imdbId", Json.str s.ImdbID)
    , ("titleSlug", Json.str s.TitleSlug)
    , ("certification", Json.str s.Certification)
    , ("genres", Json.arr (s.Genres.map Json.str))
    , ("tags", Json.arr (s.Tags.map Json.num))
    , ("added", s.Added.toJson)
    , ("ratings", s.Ratings.toJson)
    , ("qualityProfileId", Json.num s.QualityProfileID)
    , ("id", Json.num s.ID) ]

def Series.fromJson (j : Json) : Except String Series := do
  let title ← decStr (j.getField "title")
  let alt ← decListWith SeriesAltTitle.fromJson (j.getField "alternateTitles")
  let sortTitle ← decStr (j.getField "sortTitle")
  let seasonCount ← decInt (j.getField "seasonCount")
  let totalEpisodeCount ← decInt (j.getField "totalEpisodeCount")
  let episodeCount ← decInt (j.getField "episodeCount")
  let episodeFileCount ← decInt (j.getField "episodeFileCount")
  let sizeOnDisk ← decInt (j.getField "sizeOnDisk")
  let status ← decStr (j.getField "status")
  let overview ← decStr (j.getField "overview")
  let previousAiring ← decTime (j.getField "previousAiring")
  let network ← decStr (j.getField "network")
  let airTime ← decStr (j.getField "airTime")
  let images ← decListWith SeriesImage.fromJson (j.getField "images")
  let seasons ← decListWith SeriesSeason.fromJson (j.getField "seasons")
  let year ← decInt (j.getField "year")
  let path ← decStr (j.getField "path")
  let profileId ← decInt (j.getField "profileId")
  let seasonFolder ← decBool (j.getField "seasonFolder")
  let monitored ← decBool (j.getField "monitored")
  let useSceneNumbering ← decBool (j.getField "useSceneNumbering")
  let runtime ← decInt (j.getField "runtime")
  let tvdbId ← decInt (j.getField "tvdbId")
  let tvRageId ← decInt (j.getField "tvRageId")
  let tvMazeId ← decInt (j.getField "tvMazeId")
  let firstAired ← decTime (j.getField "firstAired")
  let lastInfoSync ← decTime (j.getField "lastInfoSync")
  let seriesType ← decStr (j.getField "seriesType")
  let cleanTitle ← decStr (j.getField "cleanTitle")
  let imdbId ← decStr (j.getField "imdbId")
  let titleSlug ← decStr (j.getField "titleSlug")
  let certification ← decStr (j.getField "certification")
  let genres ← decListWith decStrElem (j.getField "genres")
  let tags ← decListWith decIntElem (j.getField "tags")
  let added ← decTime (j.getField "added")
  let ratings ← decStructWith SeriesRatings.fromJson default (j.getField "ratings")
  let qualityProfileId ← decInt (j.getField "qualityProfileId")
  let id ← decInt (j.getField "id")
  pure
    { Title := title, AlternateTitles := alt, SortTitle := sortTitle,
      SeasonCount := seasonCount, TotalEpisodeCount := totalEpisodeCount,
      EpisodeCount := episodeCount, EpisodeFileCount := episodeFileCount,
      SizeOnDisk := sizeOnDisk, Status := status, Overview := overview,
      PreviousAiring := previousAiring, Network := network, AirTime := airTime,
      Images := images, Seasons := seasons, Year := year, Path := path,
      ProfileID := profileId, SeasonFolder := seasonFolder, Monitored := monitored,
      UseSceneNumbering := useSceneNumbering, Runtime := runtime,
      TvdbID := tvdbId, TvRageID := tvRageId, TvMazeID := tvMazeId,
      FirstAired := firstAired, LastInfoSync := lastInfoSync,
      SeriesType := seriesType, CleanTitle := cleanTitle, ImdbID := imdbId,
      TitleSlug := titleSlug, Certification := certification, Genres := genres,
      Tags := tags, Added := added, Ratings := ratings,
      QualityProfileID := qualityProfileId, ID := id }

def Episode.toJson (e : Episode) : Json :=
  Json.obj
    [ ("seriesId", Json.num e.SeriesID)
    , ("episodeFileID", Json.num e.EpisodeFileID)
    , ("seasonNumber", Json.num e.SeasonNumber)
    , ("episodeNumber", Json.num e.EpisodeNumber)
    , ("title", Json.str e.Title)
    , ("airDate", Json.str e.AirDate)
    , ("airDateUTC", e.AirDateUTC.toJson)
    , ("overview", Json.str e.Overview)
    , ("hasFile", Json.bool e.HasFile)
    , ("monitored", Json.bool e.Monitored)
    , ("unverifiedSceneNumbering", Json.bool e.UnverifiedSceneNumbering)
    , ("id", Json.num e.ID) ]

def Episode.fromJson (j : Json) : Except String Episode := do
  let seriesId ← decInt (j.getField "seriesId")
  let episodeFileId ← decInt (j.getField "episodeFileID")
  let seasonNumber ← decInt (j.getField "seasonNumber")
  let episodeNumber ← decInt (j.getField "episodeNumber")
  let title ← decStr (j.getField "title")
  let airDate ← decStr (j.getField "airDate")
  let airDateUtc ← decTime (j.getField "airDateUTC")
  let overview ← decStr (j.getField "overview")
  let hasFile ← decBool (j.getField "hasFile")
  let monitored ← decBool (j.getField "monitored")
  let unverified ← decBool (j.getField "unverifiedSceneNumbering")
  let id ← decInt (j.getField "id")
  pure
    { SeriesID := seriesId, EpisodeFileID := episodeFileId,
      SeasonNumber := seasonNumber, EpisodeNumber := episodeNumber,
      Title := title, AirDate := airDate, AirDateUTC := airDateUtc,
      Overview := overview, HasFile := hasFile, Monitored := monitored,
      UnverifiedSceneNumbering := unverified, ID := id }

def QualityInner.fromJson (j : Json) : Except String QualityInner := do
  let id ← decInt (j.getField "id")
  let name ← decStr (j.getField "name")
  pure { ID := id, Name := name }

def QualityRevision.fromJson (j : Json) : Except String QualityRevision := do
  let v ← decInt (j.getField "version")
  let r ← decInt (j.getField "real")
  pure { Version := v, Real := r }

/-- Alias avoiding the clash between the `Quality` type and the
`Quality.Quality` field projection inside the `Quality` namespace. -/
abbrev QualityVal := Quality

def Quality.fromJson (j : Json) : Except String QualityVal := do
  let q ← decStructWith QualityInner.fromJson default (j.getField "quality")
  let r ← decStructWith QualityRevision.fromJson default (j.getField "revision")
  let p ← decBool (j.getField "proper")
  pure { Quality := q, Revision := r, Proper := p }

def EpisodeFile.fromJson (j : Json) : Except String EpisodeFile := do
  let seriesId ← decInt (j.getField "seriesId")
  let seasonNumber ← decInt (j.getField "seasonNumber")
  let relativePath ← decStr (j.getField "relativePath")
  let path ← decStr (j.getField "path")
  let size ← decInt (j.getField "size")
  let dateAdded ← decStr (j.getField "dateAdded")
  let sceneName ← decStr (j.getField "sceneName")
  let quality ← decStructWith Quality.fromJson default (j.getField "quality")
  let cutoff ← decBool (j.getField "qualityCutoffNotMet")
  let id ← decInt (j.getField "id")
  pure
    { SeriesID := seriesId, SeasonNumber := seasonNumber,
      RelativePath := relativePath, Path := path, Size := size,
      DateAdded := dateAdded, SceneName := sceneName, Quality := quality,
      QualityCutoffNotMet := cutoff, ID := id }

def Calendar.fromJson (j : Json) : Except String Calendar := do
  let seriesId ← decInt (j.getField "seriesId")
  let episodeFileId ← decInt (j.getField "episodeFileId")
  let seasonNumber ← decInt (j.getField "seasonNumber")
  let episodeNumber ← decInt (j.getField "episodeNumber")
  let title ← decStr (j.getField "title")
  let airDate ← decStr (j.getField "airDate")
  let airDateUtc ← decTime (j.getField "airDateUtc")
  let hasFile ← decBool (j.getField "hasFile")
  let monitored ← decBool (j.getField "monitored")
  let abs ← decInt (j.getField "absoluteEpisodeNumber")
  let series ← decStructWith Series.fromJson default (j.getField "series")
  let unverified ← decBool (j.getField "unverifiedSceneNumbering")
  pure
    { SeriesID := seriesId, EpisodeFileID := episodeFileId,
      SeasonNumber := seasonNumber, EpisodeNumber := episodeNumber,
      Title := title, AirDate := airDate, AirDateUTC := airDateUtc,
      HasFile := hasFile, Monitored := monitored,
      AbsoluteEpisodeNumber := abs, Series := series,
      UnverifiedSceneNumbering := unverified }

def DiskSpace.fromJson (j : Json) : Except String DiskSpace := do
  let path ← decStr (j.getField "path")
  let label ← decStr (j.getField "label")
  let free ← decInt (j.getField "freeSpace")
  let total ← decInt (j.getField "totalSpace")
  pure { Path := path, Label := label, FreeSpace := free, TotalSpace := total }

def Tag.fromJson (j : Json) : Except String Tag := do
  let label ← decStr (j.getField "label")
  let id ← decInt (j.getField "id")
  pure { Label := label, ID := id }

/-- Decode a top-level JSON array response body into a slice, modelling
`json.NewDecoder(res.Body).Decode(&results)` with a slice target. -/
def decodeList (f : Json → Except String α) : Json → Except String (List α)
  | Json.null => Except.ok []
  | Json.arr xs => xs.mapM f
  | _ => Except.error "json: cannot unmarshal value into slice"

/-- Decode a top-level JSON object response body into a struct value,
modelling `json.NewDecoder(res.Body).Decode(results)`. -/
def decodeObj (f : Json → Except String α) (zero : α) : Json → Except String α
  | Json.null => Except.ok zero
  | j => f j

/-- The decimal digit characters, as indexed by Go's integer
formatting. -/
def natDigitChar (d : Nat) : Char :=
  match d with
  | 0 => '0'
  | 1 => '1'
  | 2 => '2'
  | 3 => '3'
  | 4 => '4'
  | 5 => '5'
  | 6 => '6'
  | 7 => '7'
  | 8 => '8'
  | _ => '9'

/-- Decimal digits, most significant first; structurally recursive on a
fuel argument so that it evaluates by kernel reduction.  `n + 1` fuel is
always enough since the value shrinks by a factor of ten per step. -/
def natToDigitsAux : Nat → Nat → List Char
  | 0, _ => []
  | fuel + 1, n =>
    if n < 10 then [natDigitChar n]
    else natToDigitsAux fuel (n / 10) ++ [natDigitChar (n % 10)]

/-- Decimal digits of a natural number, most significant first. -/
def natToDigits (n : Nat) : List Char :=
  natToDigitsAux (n + 1) n

/-- Model of `strconv.Itoa`: decimal representation with a leading `-`
for negative numbers. -/
def goItoa (n : Int) : String :=
  if n < 0 then ⟨'-' :: natToDigits n.natAbs⟩ else ⟨natToDigits n.natAbs⟩

/-! ## Endpoint operations (`sonarr.go`)

Each operation returns the Go `(result, error)` pair as an `Except`,
together with the trace of requests handed to the transport.  The
PUT-based operations take the `json.Marshal` function for their payload
explicitly (see the module docstring). -/

def calendarEndpoint : String := "calendar"

def diskSpaceEndpoint : String := "diskspace"

def episodeEndpoint : String := "episode"

def episodeFileEndpoint : String := "episodefile"

def seriesEndpoint : String := "series"

def tagEndpoint : String := "tag"

/-- Embedding of `(*Sonarr).GetCalendar`. -/
def Sonarr.GetCalendar (s : Sonarr) (start end_ : String) :
    Except GoErr (List Calendar) × List Request :=
  let params : Values := []
  let params := if start ≠ "" then Values.set "start" start params else params
  let params := if end_ ≠ "" then Values.set "end" end_ params else params
  match s.get calendarEndpoint (some params) with
  | (Except.error e, tr) => (Except.error e, tr)
  | (Except.ok res, tr) =>
    ((decodeList Calendar.fromJson res.body).mapError GoErr.decode, tr)

/-- Embedding of `(*Sonarr).GetDiskSpace`. -/
def Sonarr.GetDiskSpace (s : Sonarr) :
    Except GoErr (List DiskSpace) × List Request :=
  match s.get diskSpaceEndpoint none with
  | (Except.error e, tr) => (Except.error e, tr)
  | (Except.ok res, tr) =>
    ((decodeList DiskSpace.fromJson res.body).mapError GoErr.decode, tr)

/-- Embedding of `(*Sonarr).GetEpisodes`. -/
def Sonarr.GetEpisodes (s : Sonarr) (seriesID : Int) :
    Except GoErr (List Episode) × List Request :=
  if seriesID ≤ 0 then
    (Except.error (GoErr.validation "seriesID must be a positive integer"), [])
  else
    let params := Values.set "seriesId" (goItoa seriesID) []
    match s.get episodeEndpoint (some params) with
    | (Except.error e, tr) => (Except.error e, tr)
    | (Except.ok res, tr) =>
      ((decodeList Episode.fromJson res.body).mapError GoErr.decode, tr)

/-- Embedding of `(*Sonarr).GetEpisode`. -/
def Sonarr.GetEpisode (s : Sonarr) (episodeID : Int) :
    Except GoErr Episode × List Request :=
  if episodeID ≤ 0 then
    (Except.error (GoErr.validation "episodeID must be a positive integer"), [])
  else
    let episodeURL := episodeEndpoint ++ "/" ++ goItoa episodeID
    match s.get episodeURL none with
    | (Except.error e, tr) => (Except.error e, tr)
    | (Except.ok res, tr) =>
      ((decodeObj Episode.fromJson default res.body).mapError GoErr.decode, tr)

/-- Embedding of `(*Sonarr).UpdateEpisode`; `marshal` is `json.Marshal`
at type `*Episode`. -/
def Sonarr.UpdateEpisode (s : Sonarr) (marshal : Episode → Except String Json)
    (ep : Episode) : Except GoErr Episode × List Request :=
  let episodeURL := episodeEndpoint ++ "/" ++ goItoa ep.ID
  match s.put episodeURL (marshal ep) with
  | (Except.error e, tr) => (Except.error e, tr)
  | (Except.ok res, tr) =>
    ((decodeObj Episode.fromJson default res.body).mapError GoErr.decode, tr)

/-- Embedding of `(*Sonarr).GetEpisodeFiles`. -/
def Sonarr.GetEpisodeFiles (s : Sonarr) (seriesID : Int) :
    Except GoErr (List EpisodeFile) × List Request :=
  if seriesID ≤ 0 then
    (Except.error (GoErr.validation "seriesID must be a positive integer"), [])
  else
    let params := Values.set "seriesId" (goItoa seriesID) []
    match s.get episodeFileEndpoint (some params) with
    | (Except.error e, tr) => (Except.error e, tr)
    | (Except.ok res, tr) =>
      ((decodeList EpisodeFile.fromJson res.body).mapError GoErr.decode, tr)

/-- Embedding of `(*Sonarr).GetEpisodeFile`. -/
def Sonarr.GetEpisodeFile (s : Sonarr) (episodeFileID : Int) :
    Except GoErr EpisodeFile × List Request :=
  if episodeFileID ≤ 0 then
    (Except.error (GoErr.validation "episodeFileID must be a positive integer"), [])
  else
    let episodeFileURL := episodeFileEndpoint ++ "/" ++ goItoa episodeFileID
    match s.get episodeFileURL none with
    | (Except.error e, tr) => (Except.error e, tr)
    | (Except.ok res, tr) =>
      ((decodeObj EpisodeFile.fromJson default res.body).mapError GoErr.decode, tr)

/-- Embedding of `(*Sonarr).DeleteEpisodeFile`. -/
def Sonarr.DeleteEpisodeFile (s : Sonarr) (episodeFileID : Int) :
    Except GoErr EpisodeFile × List Request :=
  if episodeFileID ≤ 0 then
    (Except.error (GoErr.validation "episodeFileID must be a positive integer"), [])
  else
    let episodeFileURL := episodeFileEndpoint ++ "/" ++ goItoa episodeFileID
    match s.del episodeFileURL none with
    | (Except.error e, tr) => (Except.error e, tr)
    | (Except.ok res, tr) =>
      ((decodeObj EpisodeFile.fromJson default res.body).mapError GoErr.decode, tr)

/-- Embedding of `(*Sonarr).GetAllSeries`. -/
def Sonarr.GetAllSeries (s : Sonarr) :
    Except GoErr (List Series) × List Request :=
  match s.get seriesEndpoint none with
  | (Except.error e, tr) => (Except.error e, tr)
  | (Except.ok res, tr) =>
    ((decodeList Series.fromJson res.body).mapError GoErr.decode, tr)

/-- Embedding of `(*Sonarr).GetSeries`. -/
def Sonarr.GetSeries (s : Sonarr) (seriesID : Int) :
    Except GoErr Series × List Request :=
  if seriesID ≤ 0 then
    (Except.error (GoErr.validation "seriesID must be a positive integer"), [])
  else
    let seriesURL := seriesEndpoint ++ "/" ++ goItoa seriesID
    match s.get seriesURL none with
    | (Except.error e, tr) => (Except.error e, tr)
    | (Except.ok res, tr) =>
      ((decodeObj Series.fromJson default res.body).mapError GoErr.decode, tr)

/-- Embedding of `(*Sonarr).UpdateSeries`; `marshal` is `json.Marshal`
at type `*Series`. -/
def Sonarr.UpdateSeries (s : Sonarr) (marshal : Series → Except String Json)
    (ser : Series) : Except GoErr Series × List Request :=
  let seriesURL := seriesEndpoint ++ "/" ++ goItoa ser.ID
  match s.put seriesURL (marshal ser) with
  | (Except.error e, tr) => (Except.error e, tr)
  | (Except.ok res, tr) =>
    ((decodeObj Series.fromJson default res.body).mapError GoErr.decode, tr)

/-- Embedding of `(*Sonarr).DeleteSeries`. -/
def Sonarr.DeleteSeries (s : Sonarr) (seriesID : Int) (deleteFiles : Bool) :
    Except GoErr Series × List Request :=
  if seriesID ≤ 0 then
    (Except.error (GoErr.validation "seriesID must be a positive integer"), [])
  else
    let params : Values := []
    let params := if deleteFiles then Values.set "deleteFiles" "true" params else params
    let seriesURL := seriesEndpoint ++ "/" ++ goItoa seriesID
    match s.del seriesURL (some params) with
    | (Except.error e, tr) => (Except.error e, tr)
    | (Except.ok res, tr) =>
      ((decodeObj Series.fromJson default res.body).mapError GoErr.decode, tr)

/-- Embedding of `(*Sonarr).GetTags`. -/
def Sonarr.GetTags (s : Sonarr) :
    Except GoErr (List Tag) × List Request :=
  match s.get tagEndpoint none with
  | (Except.error e, tr) => (Except.error e, tr)
  | (Except.ok res, tr) =>
    ((decodeList Tag.fromJson res.body).mapError GoErr.decode, tr)

/-! ## The variant file `src/unnamed/part_000`

The unnamed file is a second definition of the client in the same
package: the same `Sonarr` struct, the same helpers from `utils.go`, and
its own copies of `New` and of the calendar / disk-space / episode /
episode-file / tag operations (it lacks the series and system-status
endpoints).  Its definitions are embedded separately here so that claim
C10 can compare them with the `sonarr.go` ones. -/

namespace Part0

def calendarEndpoint : String := "calendar"

def diskSpaceEndpoint : String := "diskspace"

def episodeEndpoint : String := "episode"

def episodeFileEndpoint : String := "episodefile"

def tagEndpoint : String := "tag"

/-- Embedding of `New` from `src/unnamed/part_000`. -/
def New (apiURL apiKey : String) : Except GoErr Sonarr :=
  if apiURL = "" then
    Except.error (GoErr.validation "apiURL is required")
  else if apiKey = "" then
    Except.error (GoErr.validation "apiKey is required")
  else
    match parseURL (normalizeBase apiURL) with
    | Except.error e => Except.error (GoErr.urlParse ("Failed to parse baseURL: " ++ e))
    | Except.ok baseURL =>
      Except.ok { baseURL := baseURL, apiKey := apiKey, HTTPClient := defaultTransport }

/-- Embedding of `(*Sonarr).GetCalendar` from `src/unnamed/part_000`. -/
def GetCalendar (s : Sonarr) (start end_ : String) :
    Except GoErr (List Calendar) × List Request :=
  let params : Values := []
  let params := if start ≠ "" then Values.set "start" start params else params
  let params := if end_ ≠ "" then Values.set "end" end_ params else params
  match s.get calendarEndpoint (some params) with
  | (Except.error e, tr) => (Except.error e, tr)
  | (Except.ok res, tr) =>
    ((decodeList Calendar.fromJson res.body).mapError GoErr.decode, tr)

/-- Embedding of `(*Sonarr).GetDiskSpace` from `src/unnamed/part_000`. -/
def GetDiskSpace (s : Sonarr) :
    Except GoErr (List DiskSpace) × List Request :=
  match s.get diskSpaceEndpoint none with
  | (Except.error e, tr) => (Except.error e, tr)
  | (Except.ok res, tr) =>
    ((decodeList DiskSpace.fromJson res.body).mapError GoErr.decode, tr)

/-- Embedding of `(*Sonarr).GetEpisodes` from `src/unnamed/part_000`. -/
def GetEpisodes (s : Sonarr) (seriesID : Int) :
    Except GoErr (List Episode) × List Request :=
  if seriesID ≤ 0 then
    (Except.error (GoErr.validation "seriesID must be a positive integer"), [])
  else
    let params := Values.set "seriesId" (goItoa seriesID) []
    match s.get episodeEndpoint (some params) with
    | (Except.error e, tr) => (Except.error e, tr)
    | (Except.ok res, tr) =>
      ((decodeList Episode.fromJson res.body).mapError GoErr.decode, tr)

/-- Embedding of `(*Sonarr).GetEpisode` from `src/unnamed/part_000`. -/
def GetEpisode (s : Sonarr) (episodeID : Int) :
    Except GoErr Episode × List Request :=
  if episodeID ≤ 0 then
    (Except.error (GoErr.validation "episodeID must be a positive integer"), [])
  else
    let episodeURL := episodeEndpoint ++ "/" ++ goItoa episodeID
    match s.get episodeURL none with
    | (Except.error e, tr) => (Except.error e, tr)
    | (Except.ok res, tr) =>
      ((decodeObj Episode.fromJson default res.body).mapError GoErr.decode, tr)

/-- Embedding of `(*Sonarr).UpdateEpisode` from `src/unnamed/part_000`. -/
def UpdateEpisode (s : Sonarr) (marshal : Episode → Except String Json)
    (ep : Episode) : Except GoErr Episode × List Request :=
  let episodeURL := episodeEndpoint ++ "/" ++ goItoa ep.ID
  match s.put episodeURL (marshal ep) with
  | (Except.error e, tr) => (Except.error e, tr)
  | (Except.ok res, tr) =>
    ((decodeObj Episode.fromJson default res.body).mapError GoErr.decode, tr)

/-- Embedding of `(*Sonarr).GetEpisodeFiles` from `src/unnamed/part_000`. -/
def GetEpisodeFiles (s : Sonarr) (seriesID : Int) :
    Except GoErr (List EpisodeFile) × List Request :=
  if seriesID ≤ 0 then
    (Except.error (GoErr.validation "seriesID must be a positive integer"), [])
  else
    let params := Values.set "seriesId" (goItoa seriesID) []
    match s.get episodeFileEndpoint (some params) with
    | (Except.error e, tr) => (Except.error e, tr)
    | (Except.ok res, tr) =>
      ((decodeList EpisodeFile.fromJson res.body).mapError GoErr.decode, tr)

/-- Embedding of `(*Sonarr).GetEpisodeFile` from `src/unnamed/part_000`. -/
def GetEpisodeFile (s : Sonarr) (episodeFileID : Int) :
    Except GoErr EpisodeFile × List Request :=
  if episodeFileID ≤ 0 then
    (Except.error (GoErr.validation "episodeFileID must be a positive integer"), [])
  else
    let episodeFileURL := episodeFileEndpoint ++ "/" ++ goItoa episodeFileID
    match s.get episodeFileURL none with
    | (Except.error e, tr) => (Except.error e, tr)
    | (Except.ok res, tr) =>
      ((decodeObj EpisodeFile.fromJson default res.body).mapError GoErr.decode, tr)

/-- Embedding of `(*Sonarr).DeleteEpisodeFile` from `src/unnamed/part_000`. -/
def DeleteEpisodeFile (s : Sonarr) (episodeFileID : Int) :
    Except GoErr EpisodeFile × List Request :=
  if episodeFileID ≤ 0 then
    (Except.error (GoErr.validation "episodeFileID must be a positive integer"), [])
  else
    let episodeFileURL := episodeFileEndpoint ++ "/" ++ goItoa episodeFileID
    match s.del episodeFileURL none with
    | (Except.error e, tr) => (Except.error e, tr)
    | (Except.ok res, tr) =>
      ((decodeObj EpisodeFile.fromJson default res.body).mapError GoErr.decode, tr)

/-- Embedding of `(*Sonarr).GetTags` from `src/unnamed/part_000`. -/
def GetTags (s : Sonarr) :
    Except GoErr (List Tag) × List Request :=
  match s.get tagEndpoint none with
  | (Except.error e, tr) => (Except.error e, tr)
  | (Except.ok res, tr) =>
    ((decodeList Tag.fromJson res.body).mapError GoErr.decode, tr)

end Part0

/-! ## Theorems -/

/-- Appending the separator makes `goHasSuffix` hold. -/
theorem goHasSuffix_append_self (a : String) : goHasSuffix (a ++ "/") "/" = true := by
  simp only [goHasSuffix, String.data_append, List.isSuffixOf_iff_suffix]
  exact List.suffix_append _ _

/-- A concrete client used to instantiate hypotheses in witnesses; it is
exactly the client `New "http://h/api" "key"` constructs. -/
def witnessClient : Sonarr :=
  { baseURL := { scheme := "http", host := "h", path := "/api/", query := [] },
    apiKey := "key", HTTPClient := defaultTransport }

/-- C4: a non-empty base address lacking a trailing `/` is stored by
`New` with exactly one `/` appended; an address already ending in `/` is
left unchanged; the normalization is idempotent; and the client built by
`New` holds exactly the parse of the normalized address. -/
theorem c4_base_normalization :
    (∀ a : String, a ≠ "" → goHasSuffix a "/" = false → normalizeBase a = a ++ "/") ∧
    (∀ a : String, goHasSuffix a "/" = true → normalizeBase a = a) ∧
    (∀ a : String, normalizeBase (normalizeBase a) = normalizeBase a) ∧
    (∀ (apiURL apiKey : String) (s : Sonarr), New apiURL apiKey = Except.ok s →
      parseURL (normalizeBase apiURL) = Except.ok s.baseURL) := by
  refine ⟨fun a _ h => by simp [normalizeBase, h], fun a h => by simp [normalizeBase, h], ?_, ?_⟩
  · intro a
    by_cases h : goHasSuffix a "/"
    · simp [normalizeBase, h]
    · simp only [normalizeBase, h, Bool.false_eq_true, if_false, if_neg]
      simp [goHasSuffix_append_self]
  · intro apiURL apiKey s h
    by_cases ha : apiURL = "" <;> by_cases hk : apiKey = "" <;>
      simp only [New, ha, hk, if_true, if_false, reduceIte] at h
    all_goals try exact absurd h (by simp)
    revert h
    cases hp : parseURL (normalizeBase apiURL) with
    | error e => intro h; exact absurd h (by simp)
    | ok u => intro h; simp only [Except.ok.injEq] at h; subst h; rfl

/-- C4 witness: the theorem applied at the concrete address
`"http://h/api"` (and key `"key"`), with every hypothesis discharged. -/
theorem c4_base_normalization_witness :
    normalizeBase "http://h/api" = "http://h/api" ++ "/" ∧
    normalizeBase "http://h/api/" = "http://h/api/" ∧
    normalizeBase (normalizeBase "http://h/api") = normalizeBase "http://h/api" ∧
    parseURL (normalizeBase "http://h/api") = Except.ok witnessClient.baseURL :=
  ⟨c4_base_normalization.1 _ (by decide) (by decide),
   c4_base_normalization.2.1 _ (by decide),
   c4_base_normalization.2.2.1 _,
   c4_base_normalization.2.2.2 "http://h/api" "key" witnessClient rfl⟩

/-- C3: `New` with an empty address fails with the address-required
validation error; with a non-empty address and empty key, with the
key-required validation error; with a non-empty address and key whose
normalized form does not parse, with an error wrapping the parse
failure.  In each case the result is an error, so no client value is
produced. -/
theorem c3_new_construction_errors :
    (∀ k : String, New "" k = Except.error (GoErr.validation "apiURL is required")) ∧
    (∀ a : String, a ≠ "" → New a "" = Except.error (GoErr.validation "apiKey is required")) ∧
    (∀ (a k e : String), a ≠ "" → k ≠ "" →
      parseURL (normalizeBase a) = Except.error e →
      New a k = Except.error (GoErr.urlParse ("Failed to parse baseURL: " ++ e))) := by
  refine ⟨fun k => by simp [New], fun a h => by simp [New, h], ?_⟩
  intro a k e ha hk hp
  simp [New, ha, hk, hp]

/-- C3 witness: the theorem applied at concrete inputs — empty address,
empty key, and an address containing a control character (which the URL
parser rejects). -/
theorem c3_new_construction_errors_witness :
    New "" "key" = Except.error (GoErr.validation "apiURL is required") ∧
    New "http://h" "" = Except.error (GoErr.validation "apiKey is required") ∧
    New "http://h\x00" "key" =
      Except.error (GoErr.urlParse ("Failed to parse baseURL: " ++
        "net/url: invalid control character in URL")) :=
  ⟨c3_new_construction_errors.1 "key",
   c3_new_construction_errors.2.1 _ (by decide),
   c3_new_construction_errors.2.2 "http://h\x00" "key" _ (by decide) (by decide) rfl⟩

/-- C2: every id-validating operation, given a non-positive identifier,
returns the corresponding validation error with an empty request trace:
no request is built and the transport is never invoked. -/
theorem c2_nonpositive_id_no_network (s : Sonarr) (id : Int) (h : id ≤ 0) :
    s.GetEpisodes id = (Except.error (GoErr.validation "seriesID must be a positive integer"), []) ∧
    s.GetEpisodeFiles id = (Except.error (GoErr.validation "seriesID must be a positive integer"), []) ∧
    s.DeleteEpisodeFile id = (Except.error (GoErr.validation "episodeFileID must be a positive integer"), []) ∧
    (∀ deleteFiles : Bool, s.DeleteSeries id deleteFiles =
      (Except.error (GoErr.validation "seriesID must be a positive integer"), [])) ∧
    s.GetEpisode id = (Except.error (GoErr.validation "episodeID must be a positive integer"), []) ∧
    s.GetEpisodeFile id = (Except.error (GoErr.validation "episodeFileID must be a positive integer"), []) ∧
    s.GetSeries id = (Except.error (GoErr.validation "seriesID must be a positive integer"), []) := by
  refine ⟨?_, ?_, ?_, fun d => ?_, ?_, ?_, ?_⟩ <;>
    simp [Sonarr.GetEpisodes, Sonarr.GetEpisodeFiles, Sonarr.DeleteEpisodeFile,
      Sonarr.DeleteSeries, Sonarr.GetEpisode, Sonarr.GetEpisodeFile, Sonarr.GetSeries, h]

/-- C2 witness: the theorem applied to a concrete client at the
identifier `0`. -/
theorem c2_nonpositive_id_no_network_witness :
    ((0 : Int) ≤ 0) ∧
    witnessClient.GetEpisodes 0 =
      (Except.error (GoErr.validation "seriesID must be a positive integer"), []) ∧
    witnessClient.DeleteSeries 0 true =
      (Except.error (GoErr.validation "seriesID must be a positive integer"), []) ∧
    witnessClient.GetSeries 0 =
      (Except.error (GoErr.validation "seriesID must be a positive integer"), []) :=
  ⟨by decide,
   (c2_nonpositive_id_no_network witnessClient 0 (by decide)).1,
   (c2_nonpositive_id_no_network witnessClient 0 (by decide)).2.2.2.1 true,
   (c2_nonpositive_id_no_network witnessClient 0 (by decide)).2.2.2.2.2.2⟩

/-- The trace of `doRequest` is exactly the one issued request,
whatever the transport answers. -/
theorem doRequest_trace (s : Sonarr) (req : Request) : (s.doRequest req).2 = [req] := by
  unfold Sonarr.doRequest
  cases s.HTTPClient req <;> rfl

/-- When the transport answers with a response, `doRequest` surfaces it
unchanged. -/
theorem doRequest_ok (s : Sonarr) (req : Request) (resp : Response)
    (h : s.HTTPClient req = Except.ok resp) :
    s.doRequest req = (Except.ok resp, [req]) := by
  unfold Sonarr.doRequest
  rw [h]

/-- C1: every request issued through the GET, PUT or DELETE helper
carries the query parameter `apikey` bound to the client's key — the
`Set` call overwrites any caller-supplied or pre-existing entry. -/
theorem c1_apikey_always_set (s : Sonarr) (endpoint : String)
    (params : Option Values) (payload : Except String Json) (req : Request) :
    (req ∈ (s.get endpoint params).2 → Values.get "apikey" req.url.query = some s.apiKey) ∧
    (req ∈ (s.del endpoint params).2 → Values.get "apikey" req.url.query = some s.apiKey) ∧
    (req ∈ (s.put endpoint payload).2 → Values.get "apikey" req.url.query = some s.apiKey) := by
  refine ⟨?_, ?_, ?_⟩
  · intro hm
    cases hp : parseURL endpoint with
    | error e =>
      simp only [Sonarr.get, hp] at hm
      exact absurd hm (List.not_mem_nil req)
    | ok rel =>
      simp only [Sonarr.get, hp, doRequest_trace, List.mem_singleton] at hm
      subst hm
      exact Values.get_set_self _ _ _
  · intro hm
    cases hp : parseURL endpoint with
    | error e =>
      simp only [Sonarr.del, hp] at hm
      exact absurd hm (List.not_mem_nil req)
    | ok rel =>
      simp only [Sonarr.del, hp, doRequest_trace, List.mem_singleton] at hm
      subst hm
      exact Values.get_set_self _ _ _
  · intro hm
    cases payload with
    | error e =>
      simp only [Sonarr.put] at hm
      exact absurd hm (List.not_mem_nil req)
    | ok body =>
      cases hp : parseURL endpoint with
      | error e =>
        simp only [Sonarr.put, hp] at hm
        exact absurd hm (List.not_mem_nil req)
      | ok rel =>
        simp only [Sonarr.put, hp, doRequest_trace, List.mem_singleton] at hm
        subst hm
        exact Values.get_set_self _ _ _

/-- C1 witness: the theorem applied to a concrete client and the one
request its GET helper issues for the `episode` endpoint. -/
theorem c1_apikey_always_set_witness :
    Values.get "apikey"
      ({ method := "GET",
         url := { scheme := "http", host := "h", path := "/api/episode",
                  query := [("apikey", "key")] },
         body := none } : Request).url.query = some witnessClient.apiKey :=
  (c1_apikey_always_set witnessClient "episode" none (Except.ok Json.null) _).1
    (List.Mem.head [])

/-- C6: in the GET and DELETE helpers an absent (`nil`) parameter set
makes the resolved URL's own query parameters the starting set, while a
present — even empty — set replaces them entirely; the two are
observably different (shown on a concrete client and endpoint whose
query is non-empty). -/
theorem c6_nil_vs_empty_params (s : Sonarr) (endpoint : String) (rel : URL)
    (hp : parseURL endpoint = Except.ok rel) :
    ((s.get endpoint none).2 =
      [{ method := "GET",
         url := { s.baseURL.resolveReference rel with
                  query := Values.set "apikey" s.apiKey (s.baseURL.resolveReference rel).query },
         body := none }] ∧
     ∀ ps : Values, (s.get endpoint (some ps)).2 =
      [{ method := "GET",
         url := { s.baseURL.resolveReference rel with
                  query := Values.set "apikey" s.apiKey ps },
         body := none }]) ∧
    ((s.del endpoint none).2 =
      [{ method := "DELETE",
         url := { s.baseURL.resolveReference rel with
                  query := Values.set "apikey" s.apiKey (s.baseURL.resolveReference rel).query },
         body := none }] ∧
     ∀ ps : Values, (s.del endpoint (some ps)).2 =
      [{ method := "DELETE",
         url := { s.baseURL.resolveReference rel with
                  query := Values.set "apikey" s.apiKey ps },
         body := none }]) ∧
    (witnessClient.get "calendar?foo=1" none).2 ≠
      (witnessClient.get "calendar?foo=1" (some [])).2 := by
  refine ⟨⟨?_, fun ps => ?_⟩, ⟨?_, fun ps => ?_⟩, fun h => ?_⟩
  · simp only [Sonarr.get, hp, doRequest_trace]
  · simp only [Sonarr.get, hp, doRequest_trace]
  · simp only [Sonarr.del, hp, doRequest_trace]
  · simp only [Sonarr.del, hp, doRequest_trace]
  · have h1 : (witnessClient.get "calendar?foo=1" none).2 =
        [{ method := "GET",
           url := { scheme := "http", host := "h", path := "/api/calendar",
                    query := [("apikey", "key"), ("foo", "1")] },
           body := none }] := rfl
    have h2 : (witnessClient.get "calendar?foo=1" (some [])).2 =
        [{ method := "GET",
           url := { scheme := "http", host := "h", path := "/api/calendar",
                    query := [("apikey", "key")] },
           body := none }] := rfl
    rw [h1, h2] at h
    have h3 := congrArg (List.map fun r => r.url.query) h
    simp only [List.map] at h3
    exact absurd h3 (by decide)

/-- C6 witness: the theorem applied to a concrete client and the
endpoint `calendar?foo=1`, whose resolved URL carries the query
parameter `foo=1`: with absent params `foo` survives, with present-but-
empty params it is dropped. -/
theorem c6_nil_vs_empty_params_witness :
    (witnessClient.get "calendar?foo=1" none).2 =
      [{ method := "GET",
         url := { scheme := "http", host := "h", path := "/api/calendar",
                  query := [("apikey", "key"), ("foo", "1")] },
         body := none }] ∧
    (witnessClient.get "calendar?foo=1" (some [])).2 =
      [{ method := "GET",
         url := { scheme := "http", host := "h", path := "/api/calendar",
                  query := [("apikey", "key")] },
         body := none }] :=
  ⟨(c6_nil_vs_empty_params witnessClient "calendar?foo=1"
      { scheme := "", host := "", path := "calendar", query := [("foo", "1")] } rfl).1.1,
   (c6_nil_vs_empty_params witnessClient "calendar?foo=1"
      { scheme := "", host := "", path := "calendar", query := [("foo", "1")] } rfl).1.2 []⟩

/-- C5: a `json.Marshal` failure makes the PUT-based operations return
exactly that serialization error, tagged as a marshal (local encoder)
error — not a transport error — with an empty request trace: nothing is
resolved, built or sent. -/
theorem c5_put_marshal_error_is_local :
    (∀ (s : Sonarr) (marshal : Series → Except String Json) (ser : Series) (e : String),
      marshal ser = Except.error e →
      s.UpdateSeries marshal ser = (Except.error (GoErr.marshal e), [])) ∧
    (∀ (s : Sonarr) (marshal : Episode → Except String Json) (ep : Episode) (e : String),
      marshal ep = Except.error e →
      s.UpdateEpisode marshal ep = (Except.error (GoErr.marshal e), [])) := by
  constructor
  · intro s marshal ser e h
    simp [Sonarr.UpdateSeries, Sonarr.put, h]
  · intro s marshal ep e h
    simp [Sonarr.UpdateEpisode, Sonarr.put, h]

/-- C5 witness: the theorem applied to a concrete client with a
marshaller that fails the way `json.Marshal` does on an unsupported
value. -/
theorem c5_put_marshal_error_is_local_witness :
    witnessClient.UpdateSeries (fun _ => Except.error "json: unsupported value: NaN") default =
      (Except.error (GoErr.marshal "json: unsupported value: NaN"), []) ∧
    witnessClient.UpdateEpisode (fun _ => Except.error "json: unsupported value: NaN") default =
      (Except.error (GoErr.marshal "json: unsupported value: NaN"), []) :=
  ⟨c5_put_marshal_error_is_local.1 witnessClient _ default _ rfl,
   c5_put_marshal_error_is_local.2 witnessClient _ default _ rfl⟩

/-- C7: the request layer never inspects the response status.  For any
transport that completes every exchange with a response — whatever its
status code — each helper returns that response as success, and
`GetAllSeries` proceeds to decode whatever body came back. -/
theorem c7_status_not_inspected (s : Sonarr) (resp : Response)
    (ht : ∀ req, s.HTTPClient req = Except.ok resp)
    (endpoint : String) (params : Option Values) (rel : URL) (body : Json)
    (hp : parseURL endpoint = Except.ok rel) :
    (s.get endpoint params).1 = Except.ok resp ∧
    (s.del endpoint params).1 = Except.ok resp ∧
    (s.put endpoint (Except.ok body)).1 = Except.ok resp ∧
    s.GetAllSeries.1 = (decodeList Series.fromJson resp.body).mapError GoErr.decode := by
  have hs : parseURL seriesEndpoint =
      Except.ok { scheme := "", host := "", path := "series", query := [] } := rfl
  refine ⟨?_, ?_, ?_, ?_⟩
  · simp only [Sonarr.get, hp]
    rw [doRequest_ok s _ resp (ht _)]
  · simp only [Sonarr.del, hp]
    rw [doRequest_ok s _ resp (ht _)]
  · simp only [Sonarr.put, hp]
    rw [doRequest_ok s _ resp (ht _)]
  · simp only [Sonarr.GetAllSeries, Sonarr.get, hs]
    rw [doRequest_ok s _ resp (ht _)]

/-- A client whose transport always answers with HTTP 500 and a `null`
body, used to witness that a non-success status is still a success for
the request layer. -/
def statusClient : Sonarr :=
  { baseURL := { scheme := "http", host := "h", path := "/api/", query := [] },
    apiKey := "key",
    HTTPClient := fun _ => Except.ok { statusCode := 500, body := Json.null } }

/-- C7 witness: the theorem applied to `statusClient`, whose every
response has status 500: the helpers report success and `GetAllSeries`
decodes the `null` body (to the empty list). -/
theorem c7_status_not_inspected_witness :
    (statusClient.get "series" none).1 =
      Except.ok { statusCode := 500, body := Json.null } ∧
    (statusClient.del "series" none).1 =
      Except.ok { statusCode := 500, body := Json.null } ∧
    (statusClient.put "series" (Except.ok Json.null)).1 =
      Except.ok { statusCode := 500, body := Json.null } ∧
    statusClient.GetAllSeries.1 =
      (decodeList Series.fromJson Json.null).mapError GoErr.decode :=
  c7_status_not_inspected statusClient { statusCode := 500, body := Json.null }
    (fun _ => rfl) "series" none { scheme := "", host := "", path := "series", query := [] }
    Json.null rfl

/-- Digit characters produced by `natDigitChar` lie in ASCII 48-57. -/
theorem natDigitChar_toNat (d : Nat) :
    48 ≤ (natDigitChar d).toNat ∧ (natDigitChar d).toNat ≤ 57 := by
  unfold natDigitChar
  split <;> decide

/-- Every character produced by `natToDigitsAux` is a decimal digit. -/
theorem natToDigitsAux_digits (fuel : Nat) :
    ∀ (n : Nat), ∀ c ∈ natToDigitsAux fuel n, 48 ≤ c.toNat ∧ c.toNat ≤ 57 := by
  induction fuel with
  | zero => intro n c hc; simp [natToDigitsAux] at hc
  | succ fuel ih =>
    intro n c hc
    unfold natToDigitsAux at hc
    by_cases h : n < 10
    · rw [if_pos h] at hc
      rw [List.mem_singleton] at hc
      subst hc
      exact natDigitChar_toNat n
    · rw [if_neg h] at hc
      rcases List.mem_append.mp hc with hc | hc
      · exact ih _ c hc
      · rw [List.mem_singleton] at hc
        subst hc
        exact natDigitChar_toNat (n % 10)

/-- Every character of `goItoa n` is a decimal digit or the minus
sign. -/
theorem goItoa_chars (n : Int) :
    ∀ c ∈ (goItoa n).data, (48 ≤ c.toNat ∧ c.toNat ≤ 57) ∨ c = '-' := by
  intro c hc
  unfold goItoa at hc
  by_cases h : n < 0
  · rw [if_pos h] at hc
    rcases List.mem_cons.mp hc with hc | hc
    · exact Or.inr hc
    · exact Or.inl (natToDigitsAux_digits _ _ c hc)
  · rw [if_neg h] at hc
    exact Or.inl (natToDigitsAux_digits _ _ c hc)

/-- `splitCharList` finds nothing when the character is absent. -/
theorem splitCharList_not_mem (c : Char) (l : List Char)
    (h : ∀ x ∈ l, x ≠ c) : splitCharList c l = (l, none) := by
  induction l with
  | nil => rfl
  | cons x xs ih =>
    simp only [splitCharList]
    rw [if_neg (h x (List.mem_cons_self x xs))]
    rw [ih (fun y hy => h y (List.mem_cons_of_mem x hy))]

/-- The property of a string that makes the URL parser treat it as a
plain relative path: no control characters, no `?`, no `:`. -/
abbrev plainPathChar (c : Char) : Prop :=
  32 ≤ c.toNat ∧ c ≠ '?' ∧ c ≠ ':'

/-- A string of plain-path characters parses to a bare relative URL:
itself as the path, no scheme, no host, no query. -/
theorem parseURL_plain (s : String) (h : ∀ c ∈ s.data, plainPathChar c) :
    parseURL s = Except.ok { scheme := "", host := "", path := s, query := [] } := by
  have hany : s.data.any (fun c => decide (c.toNat < 32)) = false := by
    rw [List.any_eq_false]
    intro c hc
    have := (h c hc).1
    simp only [decide_eq_true_eq]
    omega
  have hq : splitCharList '?' s.data = (s.data, none) :=
    splitCharList_not_mem _ _ (fun c hc => (h c hc).2.1)
  have hcol : splitCharList ':' s.data = (s.data, none) :=
    splitCharList_not_mem _ _ (fun c hc => (h c hc).2.2)
  simp only [parseURL, splitAtChar, hany, hq, hcol, Bool.false_eq_true, if_false]

/-- Characters of the per-id endpoint strings the library builds
(`episode/{id}`, `episodefile/{id}`, `series/{id}`) are plain-path
characters. -/
theorem perIdPath_chars (base : String) (hbase : ∀ c ∈ base.data, plainPathChar c)
    (n : Int) : ∀ c ∈ (base ++ "/" ++ goItoa n).data, plainPathChar c := by
  intro c hc
  simp only [String.data_append, List.mem_append] at hc
  rcases hc with (hc | hc) | hc
  · exact hbase c hc
  · rcases List.mem_singleton.mp hc with rfl
    exact ⟨by decide, by decide, by decide⟩
  · rcases goItoa_chars n c hc with ⟨h1, h2⟩ | rfl
    · refine ⟨by omega, ?_, ?_⟩
      · intro hcq; subst hcq; revert h2; decide
      · intro hcq; subst hcq; revert h2; decide
    · exact ⟨by decide, by decide, by decide⟩

/-- Resolution of a bare relative path against any base URL appends it
to the base's directory and replaces the query. -/
theorem resolveReference_relPath (base : URL) (p : String)
    (hne : p.data ≠ []) (habs : isAbsPath p = false) :
    base.resolveReference { scheme := "", host := "", path := p, query := [] } =
      { base with path := dirOf base.path ++ p, query := [] } := by
  have hp : p ≠ "" := by
    intro h
    subst h
    exact hne rfl
  unfold URL.resolveReference
  simp [hp, habs]

/-- Appending to a non-empty string keeps the character list
non-empty. -/
theorem data_append_ne_nil (a b : String) (ha : a.data ≠ []) :
    (a ++ b).data ≠ [] := by
  rw [String.data_append]
  intro h
  exact ha (List.append_eq_nil.mp h).1

/-- A path that does not start with `/` still does not after appending
to it. -/
theorem isAbsPath_append (a b : String) (ha : a.data ≠ [])
    (h : isAbsPath a = false) : isAbsPath (a ++ b) = false := by
  unfold isAbsPath at h ⊢
  rw [String.data_append]
  cases hd : a.data with
  | nil => exact absurd hd ha
  | cons x xs =>
    rw [hd] at h
    simpa using h

/-- `doRequest` answers either with a transport error or with the
transport's response, always tracing the one request. -/
theorem doRequest_cases (s : Sonarr) (req : Request) :
    (∃ e, s.doRequest req = (Except.error (GoErr.transport e), [req])) ∨
    (∃ res, s.doRequest req = (Except.ok res, [req])) := by
  unfold Sonarr.doRequest
  cases s.HTTPClient req with
  | error e => exact Or.inl ⟨e, rfl⟩
  | ok res => exact Or.inr ⟨res, rfl⟩

/-- C9: the update operations validate no identifier.  For every input
entity — its ID may be zero or negative — once the payload marshals, the
operation builds the per-id path from that ID and hands exactly one PUT
request to the transport, and its result is never a validation error. -/
theorem c9_update_no_id_validation :
    (∀ (s : Sonarr) (marshal : Episode → Except String Json) (ep : Episode) (body : Json),
      marshal ep = Except.ok body →
      (s.UpdateEpisode marshal ep).2 =
        [{ method := "PUT",
           url := { s.baseURL with
                    path := dirOf s.baseURL.path ++ (episodeEndpoint ++ "/" ++ goItoa ep.ID),
                    query := Values.set "apikey" s.apiKey [] },
           body := some body }] ∧
      ∀ msg, (s.UpdateEpisode marshal ep).1 ≠ Except.error (GoErr.validation msg)) ∧
    (∀ (s : Sonarr) (marshal : Series → Except String Json) (ser : Series) (body : Json),
      marshal ser = Except.ok body →
      (s.UpdateSeries marshal ser).2 =
        [{ method := "PUT",
           url := { s.baseURL with
                    path := dirOf s.baseURL.path ++ (seriesEndpoint ++ "/" ++ goItoa ser.ID),
                    query := Values.set "apikey" s.apiKey [] },
           body := some body }] ∧
      ∀ msg, (s.UpdateSeries marshal ser).1 ≠ Except.error (GoErr.validation msg)) := by
  constructor
  · intro s marshal ep body hm
    have hpe : parseURL (episodeEndpoint ++ "/" ++ goItoa ep.ID) =
        Except.ok { scheme := "", host := "",
                    path := episodeEndpoint ++ "/" ++ goItoa ep.ID, query := [] } :=
      parseURL_plain _ (perIdPath_chars episodeEndpoint (by decide) ep.ID)
    have hres := resolveReference_relPath s.baseURL (episodeEndpoint ++ "/" ++ goItoa ep.ID)
      (data_append_ne_nil _ _ (by decide)) (isAbsPath_append _ _ (by decide) (by decide))
    have hd := doRequest_cases s
      { method := "PUT",
        url := { s.baseURL with
                 path := dirOf s.baseURL.path ++ (episodeEndpoint ++ "/" ++ goItoa ep.ID),
                 query := Values.set "apikey" s.apiKey [] },
        body := some body }
    constructor
    · rcases hd with ⟨e, hde⟩ | ⟨res, hde⟩ <;>
        simp only [Sonarr.UpdateEpisode, Sonarr.put, hm, hpe, hres, hde]
    · intro msg
      rcases hd with ⟨e, hde⟩ | ⟨res, hde⟩
      · simp [Sonarr.UpdateEpisode, Sonarr.put, hm, hpe, hres, hde]
      · simp only [Sonarr.UpdateEpisode, Sonarr.put, hm, hpe, hres, hde]
        cases hdec : decodeObj Episode.fromJson default res.body with
        | error e => simp [Except.mapError, hdec]
        | ok v => simp [Except.mapError, hdec]
  · intro s marshal ser body hm
    have hpe : parseURL (seriesEndpoint ++ "/" ++ goItoa ser.ID) =
        Except.ok { scheme := "", host := "",
                    path := seriesEndpoint ++ "/" ++ goItoa ser.ID, query := [] } :=
      parseURL_plain _ (perIdPath_chars seriesEndpoint (by decide) ser.ID)
    have hres := resolveReference_relPath s.baseURL (seriesEndpoint ++ "/" ++ goItoa ser.ID)
      (data_append_ne_nil _ _ (by decide)) (isAbsPath_append _ _ (by decide) (by decide))
    have hd := doRequest_cases s
      { method := "PUT",
        url := { s.baseURL with
                 path := dirOf s.baseURL.path ++ (seriesEndpoint ++ "/" ++ goItoa ser.ID),
                 query := Values.set "apikey" s.apiKey [] },
        body := some body }
    constructor
    · rcases hd with ⟨e, hde⟩ | ⟨res, hde⟩ <;>
        simp only [Sonarr.UpdateSeries, Sonarr.put, hm, hpe, hres, hde]
    · intro msg
      rcases hd with ⟨e, hde⟩ | ⟨res, hde⟩
      · simp [Sonarr.UpdateSeries, Sonarr.put, hm, hpe, hres, hde]
      · simp only [Sonarr.UpdateSeries, Sonarr.put, hm, hpe, hres, hde]
        cases hdec : decodeObj Series.fromJson default res.body with
        | error e => simp [Except.mapError, hdec]
        | ok v => simp [Except.mapError, hdec]

/-- An episode with a negative identifier, for the C9 witness. -/
def epNeg : Episode := { (default : Episode) with ID := -5 }

/-- C9 witness: the theorem applied to a concrete client and an episode
whose ID is `-5`: the PUT to the per-id path is issued anyway. -/
theorem c9_update_no_id_validation_witness :
    (witnessClient.UpdateEpisode (fun e => Except.ok e.toJson) epNeg).2 =
      [{ method := "PUT",
         url := { scheme := "http", host := "h", path := "/api/episode/-5",
                  query := [("apikey", "key")] },
         body := some epNeg.toJson }] ∧
    (witnessClient.UpdateEpisode (fun e => Except.ok e.toJson) epNeg).1 ≠
      Except.error (GoErr.validation "episodeID must be a positive integer") :=
  ⟨(c9_update_no_id_validation.1 witnessClient _ epNeg epNeg.toJson rfl).1,
   (c9_update_no_id_validation.1 witnessClient _ epNeg epNeg.toJson rfl).2 _⟩

/-- C10: every operation defined both in `sonarr.go` and in
`src/unnamed/part_000` (`New`, `GetCalendar`, `GetDiskSpace`,
`GetEpisodes`, `GetEpisode`, `UpdateEpisode`, `GetEpisodeFiles`,
`GetEpisodeFile`, `DeleteEpisodeFile`, `GetTags`) is extensionally equal
to its counterpart: same client state and inputs give the same requests,
result and error. -/
theorem c10_variant_file_equivalence :
    (∀ a k : String, Part0.New a k = New a k) ∧
    (∀ (s : Sonarr) (start end_ : String),
      Part0.GetCalendar s start end_ = s.GetCalendar start end_) ∧
    (∀ s : Sonarr, Part0.GetDiskSpace s = s.GetDiskSpace) ∧
    (∀ (s : Sonarr) (seriesID : Int), Part0.GetEpisodes s seriesID = s.GetEpisodes seriesID) ∧
    (∀ (s : Sonarr) (episodeID : Int), Part0.GetEpisode s episodeID = s.GetEpisode episodeID) ∧
    (∀ (s : Sonarr) (marshal : Episode → Except String Json) (ep : Episode),
      Part0.UpdateEpisode s marshal ep = s.UpdateEpisode marshal ep) ∧
    (∀ (s : Sonarr) (seriesID : Int),
      Part0.GetEpisodeFiles s seriesID = s.GetEpisodeFiles seriesID) ∧
    (∀ (s : Sonarr) (episodeFileID : Int),
      Part0.GetEpisodeFile s episodeFileID = s.GetEpisodeFile episodeFileID) ∧
    (∀ (s : Sonarr) (episodeFileID : Int),
      Part0.DeleteEpisodeFile s episodeFileID = s.DeleteEpisodeFile episodeFileID) ∧
    (∀ s : Sonarr, Part0.GetTags s = s.GetTags) :=
  ⟨fun _ _ => rfl, fun _ _ _ => rfl, fun _ => rfl, fun _ _ => rfl, fun _ _ => rfl,
   fun _ _ _ => rfl, fun _ _ => rfl, fun _ _ => rfl, fun _ _ => rfl, fun _ => rfl⟩

/-- Reduction of a successful bind in the `Except` monad. -/
theorem exceptBindOk (a : α) (f : α → Except ε β) :
    (Except.ok a >>= f : Except ε β) = f a := rfl

/-- `pure` in the `Except` monad is `Except.ok`. -/
theorem exceptPureOk (a : α) : (pure a : Except ε α) = Except.ok a := rfl

theorem decStr_some_str (v : String) : decStr (some (Json.str v)) = Except.ok v := rfl

theorem decInt_some_num (v : Int) : decInt (some (Json.num v)) = Except.ok v := rfl

theorem decBool_some_bool (v : Bool) : decBool (some (Json.bool v)) = Except.ok v := rfl

theorem decTime_rt (t : GoTime) : decTime (some t.toJson) = Except.ok t := by
  cases t
  rfl

theorem altTitle_rt (a : SeriesAltTitle) :
    SeriesAltTitle.fromJson a.toJson = Except.ok a := by
  cases a
  rfl

theorem image_rt (i : SeriesImage) : SeriesImage.fromJson i.toJson = Except.ok i := by
  cases i
  rfl

theorem stats_rt (st : SeasonStatistics) :
    SeasonStatistics.fromJson st.toJson = Except.ok st := by
  cases st
  rfl

theorem season_rt (se : SeriesSeason) :
    SeriesSeason.fromJson se.toJson = Except.ok se := by
  cases se with
  | mk n m st => cases st; rfl

theorem decStruct_ratings_rt (r : SeriesRatings) :
    decStructWith SeriesRatings.fromJson default (some r.toJson) = Except.ok r := by
  cases r
  rfl

/-- Decoding the elementwise encoding of a list succeeds with the
original list, given the elementwise round trip. -/
theorem mapM_encode_ok (f : Json → Except String α) (g : α → Json)
    (h : ∀ x, f (g x) = Except.ok x) (xs : List α) :
    List.mapM f (xs.map g) = Except.ok xs := by
  induction xs with
  | nil => rfl
  | cons x xs ih =>
    rw [List.map_cons, List.mapM_cons, h x, ih]
    rfl

theorem decListWith_rt (f : Json → Except String α) (g : α → Json)
    (h : ∀ x, f (g x) = Except.ok x) (xs : List α) :
    decListWith f (some (Json.arr (xs.map g))) = Except.ok xs := by
  show List.mapM f (xs.map g) = Except.ok xs
  exact mapM_encode_ok f g h xs

theorem decList_alt_rt (xs : List SeriesAltTitle) :
    decListWith SeriesAltTitle.fromJson (some (Json.arr (xs.map SeriesAltTitle.toJson))) =
      Except.ok xs :=
  decListWith_rt _ _ altTitle_rt xs

theorem decList_image_rt (xs : List SeriesImage) :
    decListWith SeriesImage.fromJson (some (Json.arr (xs.map SeriesImage.toJson))) =
      Except.ok xs :=
  decListWith_rt _ _ image_rt xs

theorem decList_season_rt (xs : List SeriesSeason) :
    decListWith SeriesSeason.fromJson (some (Json.arr (xs.map SeriesSeason.toJson))) =
      Except.ok xs :=
  decListWith_rt _ _ season_rt xs

theorem decList_str_rt (xs : List String) :
    decListWith decStrElem (some (Json.arr (xs.map Json.str))) = Except.ok xs :=
  decListWith_rt decStrElem Json.str (fun _ => rfl) xs

theorem decList_int_rt (xs : List Int) :
    decListWith decIntElem (some (Json.arr (xs.map Json.num))) = Except.ok xs :=
  decListWith_rt decIntElem Json.num (fun _ => rfl) xs

/-- C8: encoding a `Series` value to JSON under the modelled field names
and decoding the result back yields the original value in every modelled
field — the serialization round trip is lossless for the modelled
schema. -/
theorem c8_series_json_roundtrip (s : Series) :
    Series.fromJson (Series.toJson s) = Except.ok s := by
  cases s
  simp only [Series.toJson, Series.fromJson, Json.getField, findField,
    String.reduceEq, reduceIte,
    decStr_some_str, decInt_some_num, decBool_some_bool, decTime_rt,
    decList_alt_rt, decList_image_rt, decList_season_rt, decList_str_rt, decList_int_rt,
    decStruct_ratings_rt, exceptBindOk, exceptPureOk]
